import Mathlib

/-!
Verification of the aikiddo student-records backend.

The Python sources (src/db/models.py, src/db/crud.py, src/db/provider.py,
src/api/students.py) are shallowly embedded here:

* Each SQLAlchemy table becomes a Lean structure of row values; the database
  is a record of row lists plus a counter `nextId` that models the stream of
  `str(uuid.uuid4())` default identifiers (distinct draws are distinct, which
  is the only property of UUIDs the code relies on).  Nullable columns
  (every `ForeignKey` column, `pet_breed`) are `Option`s.
* A SQLAlchemy `Session` is a pair of database snapshots: the durable
  `committed` state and the session's `staged` view that accumulates
  `db.add` / `db.delete` effects, plus a count of `commit()` calls.
  `commit()` checks the declared foreign-key constraints (the storage layer
  enforces them, per models.py's `ForeignKey` declarations) and either
  persists the whole staged state or raises, leaving the durable state
  untouched — matching a relational transaction.
* `models.py` declares `relationship(...)` between Student and its children
  with no `cascade` / `ondelete` option, so SQLAlchemy's default applies on
  `session.delete(student)`: the children's foreign keys are set to NULL and
  the child rows themselves survive.  `stageDeleteStudent` encodes exactly
  that.
* Fallible Python code (constraint violations, attribute errors) returns
  `Except`; an exception escaping a FastAPI handler yields a generic server
  error response, modelled by `HttpError.serverError`.
-/

/-- A row of the `students` table (models.py, class Student).  Identities are
drawn from the fresh-identifier counter; dates are kept as opaque strings. -/
structure StudentRow where
  id : Nat
  name : String
  gender : String
  birthdate : String
  hair_color : String
  hair_type : String
deriving Repr, DecidableEq

/-- A row of the `interests` table (models.py, class Interest).  The
`student_id` foreign-key column is nullable, hence an `Option`. -/
structure InterestRow where
  id : Nat
  student_id : Option Nat
  interest : String
deriving Repr, DecidableEq

/-- A row of the `pets` table (models.py, class Pet). -/
structure PetRow where
  id : Nat
  student_id : Option Nat
  pet_type : String
  pet_breed : Option String
  pet_name : String
deriving Repr, DecidableEq

/-- A row of the `lessons` table (models.py, class Lesson). -/
structure LessonRow where
  id : Nat
  student_id : Option Nat
  content : String
  date : String
deriving Repr, DecidableEq

/-- A row of the `lesson_questions` table (models.py, class LessonQuestion). -/
structure LessonQuestionRow where
  id : Nat
  lesson_id : Option Nat
  question_text : String
  expected_answer : String
  given_answer : String
  score : Int
deriving Repr, DecidableEq

/-- The relational database: one list of rows per table touched by the
exposed API, plus the counter feeding the generated-identifier defaults. -/
structure DB where
  students : List StudentRow
  interests : List InterestRow
  pets : List PetRow
  lessons : List LessonRow
  lesson_questions : List LessonQuestionRow
  nextId : Nat
deriving Repr, DecidableEq

/-- Request body for POST /students/ (schemas.py, StudentBaseSchema): all
five fields required, no client-supplied identity. -/
structure StudentBase where
  name : String
  gender : String
  birthdate : String
  hair_color : String
  hair_type : String
deriving Repr, DecidableEq

/-- Body item for POST /students/{id}/interests (schemas.py,
InterestBaseSchema). -/
structure InterestBase where
  interest : String
deriving Repr, DecidableEq

/-- Body item for POST /students/{id}/pets (schemas.py, PetBaseSchema);
`pet_breed` is optional. -/
structure PetBase where
  pet_type : String
  pet_breed : Option String
  pet_name : String
deriving Repr, DecidableEq

/-- Body item for POST /students/{id}/lessons (schemas.py, LessonBaseSchema). -/
structure LessonBase where
  content : String
  date : String
deriving Repr, DecidableEq

/-- True when an optional foreign-key value references an existing student
row (NULL references are accepted by the constraint). -/
def refOk (students : List StudentRow) : Option Nat → Bool
  | none => true
  | some sid => students.any (fun st => st.id == sid)

/-- True when an optional `lesson_id` value references an existing lesson. -/
def lessonRefOk (lessons : List LessonRow) : Option Nat → Bool
  | none => true
  | some lid => lessons.any (fun l => l.id == lid)

/-- The declared foreign-key constraints of models.py: every child row's
parent reference must resolve.  `commit` rejects a state violating this. -/
def fkViolation (d : DB) : Bool :=
  d.interests.any (fun i => !(refOk d.students i.student_id)) ||
  d.pets.any (fun p => !(refOk d.students p.student_id)) ||
  d.lessons.any (fun l => !(refOk d.students l.student_id)) ||
  d.lesson_questions.any (fun q => !(lessonRefOk d.lessons q.lesson_id))

/-- Error raised by the storage layer: a foreign-key (integrity) violation
at commit time. -/
inductive DBError where
  | integrityError
deriving Repr, DecidableEq

/-- A SQLAlchemy session (provider.py, `SessionLocal()`): the durable
committed database, the session's staged view of pending changes, and the
number of `commit()` calls that have succeeded on it. -/
structure Session where
  committed : DB
  staged : DB
  commits : Nat
deriving Repr, DecidableEq

/-- `db.commit()`: flush the staged changes; the storage layer checks the
foreign-key constraints and either persists the whole staged state or
raises an integrity error, leaving the durable state untouched. -/
def sCommit (s : Session) : Except DBError Session :=
  if fkViolation s.staged then
    Except.error DBError.integrityError
  else
    Except.ok { committed := s.staged, staged := s.staged, commits := s.commits + 1 }

/-- crud.py `get_student_by_id`: `db.query(Student).filter(Student.id ==
student_id).first()` — first row of the students table with the given id,
or None. -/
def get_student_by_id (s : Session) (student_id : Nat) : Option StudentRow :=
  s.staged.students.find? (fun st => st.id == student_id)

/-- The Student row built by `models.Student(**student.model_dump())` with
the generated default identity (models.py line 13). -/
def mkStudentRow (n : Nat) (b : StudentBase) : StudentRow :=
  { id := n, name := b.name, gender := b.gender, birthdate := b.birthdate,
    hair_color := b.hair_color, hair_type := b.hair_type }

/-- `db.add(models.Student(...))`: stage the new student row, consuming one
generated identifier. -/
def insertStudent (d : DB) (b : StudentBase) : DB :=
  { d with students := d.students ++ [mkStudentRow d.nextId b], nextId := d.nextId + 1 }

/-- crud.py `add_student`: build the row, `db.add`, `db.commit`,
`db.refresh`, and return the persisted row. -/
def add_student (s : Session) (b : StudentBase) : Except DBError (Session × StudentRow) :=
  let row := mkStudentRow s.staged.nextId b
  (sCommit { s with staged := insertStudent s.staged b }).map (fun s2 => (s2, row))

/-- Replace a child row's reference to student `x` by NULL, keeping other
references intact. -/
def nullifyRef (x : Nat) (r : Option Nat) : Option Nat :=
  if r == some x then none else r

/-- `session.delete(student)` as staged by SQLAlchemy for models.py's
relationships: the `students` row with the given primary key is deleted,
and — because none of `interests`, `pets`, `lessons` declares a delete
cascade — each child row referencing it has its `student_id` set to NULL
(SQLAlchemy's default "nullify" handling).  Child rows are NOT deleted, and
`lesson_questions` (whose parent lessons survive) are untouched. -/
def stageDeleteStudent (d : DB) (x : Nat) : DB :=
  { d with
    students := d.students.filter (fun st => !(st.id == x)),
    interests := d.interests.map (fun i => { i with student_id := nullifyRef x i.student_id }),
    pets := d.pets.map (fun p => { p with student_id := nullifyRef x p.student_id }),
    lessons := d.lessons.map (fun l => { l with student_id := nullifyRef x l.student_id }) }

/-- crud.py `remove_student`: look the student up by id; if absent return
False; otherwise `db.delete(db_student)`, `db.commit()`, return True. -/
def remove_student (s : Session) (student_id : Nat) : Except DBError (Session × Bool) :=
  match s.staged.students.find? (fun st => st.id == student_id) with
  | none => Except.ok (s, false)
  | some st =>
    (sCommit { s with staged := stageDeleteStudent s.staged st.id }).map (fun s2 => (s2, true))

/-- One iteration of the crud.py `add_student_interests` loop:
`db.add(models.Interest(student_id=student_id, **interest_data.model_dump()))`. -/
def insertInterest (d : DB) (student_id : Nat) (it : InterestBase) : DB :=
  { d with
    interests := d.interests ++ [{ id := d.nextId, student_id := some student_id, interest := it.interest }],
    nextId := d.nextId + 1 }

/-- The fully staged session view after the `add_student_interests` loop. -/
def stageInterests (d : DB) (student_id : Nat) (items : List InterestBase) : DB :=
  items.foldl (fun acc it => insertInterest acc student_id it) d

/-- crud.py `add_student_interests`: stage one Interest row per item, then a
single `db.commit()` over the whole batch. -/
def add_student_interests (s : Session) (student_id : Nat) (items : List InterestBase) :
    Except DBError Session :=
  sCommit { s with staged := stageInterests s.staged student_id items }

/-- One iteration of the crud.py `add_student_pets` loop. -/
def insertPet (d : DB) (student_id : Nat) (p : PetBase) : DB :=
  { d with
    pets := d.pets ++ [{ id := d.nextId, student_id := some student_id,
                         pet_type := p.pet_type, pet_breed := p.pet_breed,
                         pet_name := p.pet_name }],
    nextId := d.nextId + 1 }

/-- The fully staged session view after the `add_student_pets` loop. -/
def stagePets (d : DB) (student_id : Nat) (items : List PetBase) : DB :=
  items.foldl (fun acc p => insertPet acc student_id p) d

/-- crud.py `add_student_pets`: stage one Pet row per item, then a single
`db.commit()` over the whole batch. -/
def add_student_pets (s : Session) (student_id : Nat) (items : List PetBase) :
    Except DBError Session :=
  sCommit { s with staged := stagePets s.staged student_id items }

/-- One iteration of the crud.py `add_student_lessons` loop. -/
def insertLesson (d : DB) (student_id : Nat) (l : LessonBase) : DB :=
  { d with
    lessons := d.lessons ++ [{ id := d.nextId, student_id := some student_id,
                               content := l.content, date := l.date }],
    nextId := d.nextId + 1 }

/-- The fully staged session view after the `add_student_lessons` loop. -/
def stageLessons (d : DB) (student_id : Nat) (items : List LessonBase) : DB :=
  items.foldl (fun acc l => insertLesson acc student_id l) d

/-- crud.py `add_student_lessons`: stage one Lesson row per item, then a
single `db.commit()` over the whole batch. -/
def add_student_lessons (s : Session) (student_id : Nat) (items : List LessonBase) :
    Except DBError Session :=
  sCommit { s with staged := stageLessons s.staged student_id items }

/-- The attribute names defined on the mapped class `models.Student`: its
six columns and three relationship collections.  `parent_id` is not among
them. -/
def studentModelAttrs : List String :=
  ["id", "name", "gender", "birthdate", "hair_color", "hair_type",
   "interests", "pets", "lessons"]

/-- A Python attribute error: accessing a missing attribute on a class. -/
inductive PyError where
  | attributeError (typeName : String) (attr : String)
deriving Repr, DecidableEq

/-- Python attribute lookup on the `models.Student` class: succeeds exactly
for the attributes the class defines. -/
def getattrStudentCol (attr : String) : Except PyError String :=
  if studentModelAttrs.contains attr then Except.ok attr
  else Except.error (PyError.attributeError "Student" attr)

/-- Comparison of a student row's column (named by the resolved attribute)
against a numeric filter value; only the `id` column carries the row's
identity. -/
def studentColEq (st : StudentRow) (col : String) (v : Nat) : Bool :=
  if col == "id" then st.id == v else false

/-- crud.py `get_students_by_parent_id`: evaluates the filter expression
`models.Student.parent_id == parent_id`, which begins by resolving the
attribute `parent_id` on the Student class. -/
def get_students_by_parent_id (s : Session) (parent_id : Nat) :
    Except PyError (List StudentRow) :=
  match getattrStudentCol "parent_id" with
  | Except.error e => Except.error e
  | Except.ok col =>
    Except.ok (s.staged.students.filter (fun st => studentColEq st col parent_id))

/-- A Student as serialized through StudentSchema (schemas.py): the row's
scalar fields together with the relationship collections `interests`,
`pets`, and `lessons`, the latter carrying their nested questions. -/
structure StudentEntity where
  row : StudentRow
  interests : List InterestRow
  pets : List PetRow
  lessons : List (LessonRow × List LessonQuestionRow)
deriving Repr, DecidableEq

/-- Populate a student's relationship collections from the database, as the
`relationship(..., back_populates="student")` declarations do: children are
the rows whose foreign key equals the student's id, and each lesson carries
the questions whose `lesson_id` equals its id. -/
def loadStudent (d : DB) (st : StudentRow) : StudentEntity :=
  { row := st
  , interests := d.interests.filter (fun i => i.student_id == some st.id)
  , pets := d.pets.filter (fun p => p.student_id == some st.id)
  , lessons := (d.lessons.filter (fun l => l.student_id == some st.id)).map
      (fun l => (l, d.lesson_questions.filter (fun q => q.lesson_id == some l.id))) }

/-- An HTTP error outcome: an explicit `HTTPException(status, detail)`
raised by a handler, or the generic server error FastAPI produces for an
unhandled exception escaping the handler. -/
inductive HttpError where
  | httpException (status : Nat) (detail : String)
  | serverError
deriving Repr, DecidableEq

/-- The JSON body `{"detail": ...}` returned by the delete endpoint. -/
structure Detail where
  detail : String
deriving Repr, DecidableEq

/-- Tags for the data-access (crud.py) functions, used to trace which calls
a request handler performs. -/
inductive CrudCall where
  | addStudent
  | getStudentById
  | removeStudent
  | addInterests
  | addPets
  | addLessons
deriving Repr, DecidableEq

/-- students.py `create_student` (POST /students/): one call to
`add_student`; the created row is serialized with its (empty) relationship
collections.  A storage error escapes as a generic server error. -/
def create_student_handler (s : Session) (b : StudentBase) :
    Except HttpError (Session × StudentEntity) × List CrudCall :=
  match add_student s b with
  | Except.error _ => (Except.error HttpError.serverError, [CrudCall.addStudent])
  | Except.ok (s2, row) => (Except.ok (s2, loadStudent s2.staged row), [CrudCall.addStudent])

/-- students.py `read_student` (GET /students/{id}): one call to
`get_student_by_id`; a None result raises `HTTPException(404, "Student not
found")`, otherwise the student is returned with all dependencies. -/
def read_student_handler (s : Session) (student_id : Nat) :
    Except HttpError (Session × StudentEntity) × List CrudCall :=
  match get_student_by_id s student_id with
  | none => (Except.error (HttpError.httpException 404 "Student not found"),
             [CrudCall.getStudentById])
  | some st => (Except.ok (s, loadStudent s.staged st), [CrudCall.getStudentById])

/-- students.py `delete_student` (DELETE /students/{id}): one call to
`remove_student`; False raises `HTTPException(404, "Student not found")`,
True yields the body `{"detail": "Student removed"}`. -/
def delete_student_handler (s : Session) (student_id : Nat) :
    Except HttpError (Session × Detail) × List CrudCall :=
  match remove_student s student_id with
  | Except.error _ => (Except.error HttpError.serverError, [CrudCall.removeStudent])
  | Except.ok (_, false) => (Except.error (HttpError.httpException 404 "Student not found"),
                             [CrudCall.removeStudent])
  | Except.ok (s2, true) => (Except.ok (s2, Detail.mk "Student removed"),
                             [CrudCall.removeStudent])

/-- students.py `create_student_interests` (POST /students/{id}/interests):
`add_student_interests` followed by `get_student_by_id`; a storage error in
the former escapes before the lookup happens.  The handler performs no
not-found check of its own: the looked-up student is returned as-is. -/
def create_student_interests_handler (s : Session) (student_id : Nat)
    (items : List InterestBase) :
    Except HttpError (Session × Option StudentEntity) × List CrudCall :=
  match add_student_interests s student_id items with
  | Except.error _ => (Except.error HttpError.serverError, [CrudCall.addInterests])
  | Except.ok s2 =>
    (Except.ok (s2, (get_student_by_id s2 student_id).map (loadStudent s2.staged)),
     [CrudCall.addInterests, CrudCall.getStudentById])

/-- students.py `create_student_pets` (POST /students/{id}/pets): same
shape as the interests endpoint. -/
def create_student_pets_handler (s : Session) (student_id : Nat)
    (items : List PetBase) :
    Except HttpError (Session × Option StudentEntity) × List CrudCall :=
  match add_student_pets s student_id items with
  | Except.error _ => (Except.error HttpError.serverError, [CrudCall.addPets])
  | Except.ok s2 =>
    (Except.ok (s2, (get_student_by_id s2 student_id).map (loadStudent s2.staged)),
     [CrudCall.addPets, CrudCall.getStudentById])

/-- students.py `create_student_lessons` (POST /students/{id}/lessons):
same shape as the interests endpoint. -/
def create_student_lessons_handler (s : Session) (student_id : Nat)
    (items : List LessonBase) :
    Except HttpError (Session × Option StudentEntity) × List CrudCall :=
  match add_student_lessons s student_id items with
  | Except.error _ => (Except.error HttpError.serverError, [CrudCall.addLessons])
  | Except.ok s2 =>
    (Except.ok (s2, (get_student_by_id s2 student_id).map (loadStudent s2.staged)),
     [CrudCall.addLessons, CrudCall.getStudentById])

/-- provider.py `SessionLocal()`: a fresh session over the durable
database, with no staged changes and no commits yet. -/
def SessionLocal (d : DB) : Session :=
  { committed := d, staged := d, commits := 0 }

/-- Lifecycle events of the storage-layer session during one request. -/
inductive SessionEvent where
  | opened
  | closed
deriving Repr, DecidableEq

/-- provider.py `get_db`, as the FastAPI dependency drives it for one
request: `db = SessionLocal()` (one session opened), the handler runs with
it, and the `finally:` clause closes the session whether the handler
returned normally or raised (an exception is an `Except.error` result).
The event list records the open and the unconditional close around the
handler's run. -/
def get_db {α : Type} (d : DB) (handler : Session → Except HttpError α) :
    Except HttpError α × List SessionEvent :=
  let s := SessionLocal d
  let result := handler s
  (result, [SessionEvent.opened] ++ [SessionEvent.closed])

/-- The spec's example student body. -/
def anaBase : StudentBase :=
  { name := "Ana", gender := "Female", birthdate := "2015-03-02",
    hair_color := "Black", hair_type := "Curly" }

/-- The row the example student receives at identity 0. -/
def anaRow : StudentRow := mkStudentRow 0 anaBase

/-- A database holding exactly the example student and no children. -/
def oneStudentDB : DB :=
  { students := [anaRow], interests := [], pets := [], lessons := [],
    lesson_questions := [], nextId := 1 }

/-- A fresh request session over `oneStudentDB`. -/
def oneStudentSess : Session := SessionLocal oneStudentDB

/-- An empty database. -/
def emptyDB : DB :=
  { students := [], interests := [], pets := [], lessons := [],
    lesson_questions := [], nextId := 0 }

/-- A fresh request session over the empty database. -/
def emptySess : Session := SessionLocal emptyDB

lemma fkViolation_false_iff (d : DB) :
    fkViolation d = false ↔
      (∀ i ∈ d.interests, refOk d.students i.student_id = true) ∧
      (∀ p ∈ d.pets, refOk d.students p.student_id = true) ∧
      (∀ l ∈ d.lessons, refOk d.students l.student_id = true) ∧
      (∀ q ∈ d.lesson_questions, lessonRefOk d.lessons q.lesson_id = true) := by
  simp only [fkViolation, Bool.or_eq_false_iff, List.any_eq_false, Bool.not_eq_true',
    Bool.not_eq_false]
  tauto

lemma refOk_append (students xs : List StudentRow) (r : Option Nat)
    (h : refOk students r = true) : refOk (students ++ xs) r = true := by
  cases r with
  | none => simp [refOk]
  | some y =>
    simp only [refOk] at h
    simp only [refOk, List.any_append, h, Bool.true_or]

lemma refOk_of_mem (students : List StudentRow) (st : StudentRow)
    (hmem : st ∈ students) (sid : Nat) (hid : st.id = sid) :
    refOk students (some sid) = true := by
  simp only [refOk, List.any_eq_true]
  exact ⟨st, hmem, by simp [hid]⟩

lemma refOk_false_of_absent (students : List StudentRow) (sid : Nat)
    (habs : ∀ st ∈ students, st.id ≠ sid) :
    refOk students (some sid) = false := by
  simp only [refOk]
  rw [List.any_eq_false]
  intro st hmem
  simp [habs st hmem]

/-- Bound on an optional foreign-key value: NULL, or a reference below `n`. -/
def idLt (n : Nat) : Option Nat → Bool
  | none => true
  | some m => decide (m < n)

/-- Freshness invariant of the generated-identifier counter: every stored
identity and every stored reference is below `nextId`, so the next
generated value collides with nothing.  This is the model counterpart of
uuid4 draws being distinct. -/
def freshOk (d : DB) : Bool :=
  d.students.all (fun st => decide (st.id < d.nextId)) &&
  d.interests.all (fun i => decide (i.id < d.nextId) && idLt d.nextId i.student_id) &&
  d.pets.all (fun p => decide (p.id < d.nextId) && idLt d.nextId p.student_id) &&
  d.lessons.all (fun l => decide (l.id < d.nextId) && idLt d.nextId l.student_id) &&
  d.lesson_questions.all (fun q => decide (q.id < d.nextId) && idLt d.nextId q.lesson_id)

lemma idLt_ne_some (n : Nat) (r : Option Nat) (h : idLt n r = true) (m : Nat)
    (hm : n ≤ m) : r ≠ some m := by
  cases r with
  | none => simp
  | some y =>
    simp only [idLt, decide_eq_true_eq] at h
    simp only [ne_eq, Option.some.injEq]
    omega

lemma freshOk_spec (d : DB) (h : freshOk d = true) :
    (∀ st ∈ d.students, st.id < d.nextId) ∧
    (∀ i ∈ d.interests, i.id < d.nextId ∧ idLt d.nextId i.student_id = true) ∧
    (∀ p ∈ d.pets, p.id < d.nextId ∧ idLt d.nextId p.student_id = true) ∧
    (∀ l ∈ d.lessons, l.id < d.nextId ∧ idLt d.nextId l.student_id = true) ∧
    (∀ q ∈ d.lesson_questions, q.id < d.nextId ∧ idLt d.nextId q.lesson_id = true) := by
  simp only [freshOk, Bool.and_eq_true, List.all_eq_true, decide_eq_true_eq] at h
  tauto

/-- The Interest rows staged by the `add_student_interests` loop, starting
from identifier `n`. -/
def interestRows (n sid : Nat) : List InterestBase → List InterestRow
  | [] => []
  | it :: rest =>
    { id := n, student_id := some sid, interest := it.interest } :: interestRows (n + 1) sid rest

/-- The Pet rows staged by the `add_student_pets` loop. -/
def petRows (n sid : Nat) : List PetBase → List PetRow
  | [] => []
  | p :: rest =>
    { id := n, student_id := some sid, pet_type := p.pet_type,
      pet_breed := p.pet_breed, pet_name := p.pet_name } :: petRows (n + 1) sid rest

/-- The Lesson rows staged by the `add_student_lessons` loop. -/
def lessonRows (n sid : Nat) : List LessonBase → List LessonRow
  | [] => []
  | l :: rest =>
    { id := n, student_id := some sid, content := l.content, date := l.date } ::
      lessonRows (n + 1) sid rest

lemma stageInterests_spec (sid : Nat) (items : List InterestBase) :
    ∀ d : DB,
      (stageInterests d sid items).interests = d.interests ++ interestRows d.nextId sid items ∧
      (stageInterests d sid items).students = d.students ∧
      (stageInterests d sid items).pets = d.pets ∧
      (stageInterests d sid items).lessons = d.lessons ∧
      (stageInterests d sid items).lesson_questions = d.lesson_questions ∧
      (stageInterests d sid items).nextId = d.nextId + items.length := by
  induction items with
  | nil => intro d; simp [stageInterests, interestRows]
  | cons it rest ih =>
    intro d
    have hstep : stageInterests d sid (it :: rest) =
        stageInterests (insertInterest d sid it) sid rest := by
      simp [stageInterests, List.foldl_cons]
    rcases ih (insertInterest d sid it) with ⟨h1, h2, h3, h4, h5, h6⟩
    have hni : (insertInterest d sid it).nextId = d.nextId + 1 := rfl
    refine ⟨?_, ?_, ?_, ?_, ?_, ?_⟩
    · rw [hstep, h1]
      show (d.interests ++ [({ id := d.nextId, student_id := some sid, interest := it.interest } : InterestRow)]) ++
        interestRows (d.nextId + 1) sid rest = _
      rw [List.append_assoc]
      rfl
    · rw [hstep, h2]; rfl
    · rw [hstep, h3]; rfl
    · rw [hstep, h4]; rfl
    · rw [hstep, h5]; rfl
    · rw [hstep, h6, hni]
      simp [List.length_cons]
      omega

lemma stagePets_spec (sid : Nat) (items : List PetBase) :
    ∀ d : DB,
      (stagePets d sid items).pets = d.pets ++ petRows d.nextId sid items ∧
      (stagePets d sid items).students = d.students ∧
      (stagePets d sid items).interests = d.interests ∧
      (stagePets d sid items).lessons = d.lessons ∧
      (stagePets d sid items).lesson_questions = d.lesson_questions ∧
      (stagePets d sid items).nextId = d.nextId + items.length := by
  induction items with
  | nil => intro d; simp [stagePets, petRows]
  | cons p rest ih =>
    intro d
    have hstep : stagePets d sid (p :: rest) = stagePets (insertPet d sid p) sid rest := by
      simp [stagePets, List.foldl_cons]
    rcases ih (insertPet d sid p) with ⟨h1, h2, h3, h4, h5, h6⟩
    have hni : (insertPet d sid p).nextId = d.nextId + 1 := rfl
    refine ⟨?_, ?_, ?_, ?_, ?_, ?_⟩
    · rw [hstep, h1]
      show (d.pets ++ [({ id := d.nextId, student_id := some sid, pet_type := p.pet_type, pet_breed := p.pet_breed, pet_name := p.pet_name } : PetRow)]) ++
        petRows (d.nextId + 1) sid rest = _
      rw [List.append_assoc]
      rfl
    · rw [hstep, h2]; rfl
    · rw [hstep, h3]; rfl
    · rw [hstep, h4]; rfl
    · rw [hstep, h5]; rfl
    · rw [hstep, h6, hni]
      simp [List.length_cons]
      omega

lemma stageLessons_spec (sid : Nat) (items : List LessonBase) :
    ∀ d : DB,
      (stageLessons d sid items).lessons = d.lessons ++ lessonRows d.nextId sid items ∧
      (stageLessons d sid items).students = d.students ∧
      (stageLessons d sid items).interests = d.interests ∧
      (stageLessons d sid items).pets = d.pets ∧
      (stageLessons d sid items).lesson_questions = d.lesson_questions ∧
      (stageLessons d sid items).nextId = d.nextId + items.length := by
  induction items with
  | nil => intro d; simp [stageLessons, lessonRows]
  | cons l rest ih =>
    intro d
    have hstep : stageLessons d sid (l :: rest) =
        stageLessons (insertLesson d sid l) sid rest := by
      simp [stageLessons, List.foldl_cons]
    rcases ih (insertLesson d sid l) with ⟨h1, h2, h3, h4, h5, h6⟩
    have hni : (insertLesson d sid l).nextId = d.nextId + 1 := rfl
    refine ⟨?_, ?_, ?_, ?_, ?_, ?_⟩
    · rw [hstep, h1]
      show (d.lessons ++ [({ id := d.nextId, student_id := some sid, content := l.content, date := l.date } : LessonRow)]) ++
        lessonRows (d.nextId + 1) sid rest = _
      rw [List.append_assoc]
      rfl
    · rw [hstep, h2]; rfl
    · rw [hstep, h3]; rfl
    · rw [hstep, h4]; rfl
    · rw [hstep, h5]; rfl
    · rw [hstep, h6, hni]
      simp [List.length_cons]
      omega

lemma interestRows_length (sid : Nat) (items : List InterestBase) :
    ∀ n, (interestRows n sid items).length = items.length := by
  induction items with
  | nil => intro n; simp [interestRows]
  | cons it rest ih => intro n; simp [interestRows, ih]

lemma petRows_length (sid : Nat) (items : List PetBase) :
    ∀ n, (petRows n sid items).length = items.length := by
  induction items with
  | nil => intro n; simp [petRows]
  | cons p rest ih => intro n; simp [petRows, ih]

lemma lessonRows_length (sid : Nat) (items : List LessonBase) :
    ∀ n, (lessonRows n sid items).length = items.length := by
  induction items with
  | nil => intro n; simp [lessonRows]
  | cons l rest ih => intro n; simp [lessonRows, ih]

lemma interestRows_student_id (sid : Nat) (items : List InterestBase) :
    ∀ n, ∀ r ∈ interestRows n sid items, r.student_id = some sid := by
  induction items with
  | nil => intro n r hr; simp [interestRows] at hr
  | cons it rest ih =>
    intro n r hr
    rcases List.mem_cons.mp hr with h | h
    · simp [h]
    · exact ih (n + 1) r h

lemma petRows_student_id (sid : Nat) (items : List PetBase) :
    ∀ n, ∀ r ∈ petRows n sid items, r.student_id = some sid := by
  induction items with
  | nil => intro n r hr; simp [petRows] at hr
  | cons p rest ih =>
    intro n r hr
    rcases List.mem_cons.mp hr with h | h
    · simp [h]
    · exact ih (n + 1) r h

lemma lessonRows_student_id (sid : Nat) (items : List LessonBase) :
    ∀ n, ∀ r ∈ lessonRows n sid items, r.student_id = some sid := by
  induction items with
  | nil => intro n r hr; simp [lessonRows] at hr
  | cons l rest ih =>
    intro n r hr
    rcases List.mem_cons.mp hr with h | h
    · simp [h]
    · exact ih (n + 1) r h

lemma interestRows_payload (sid : Nat) (items : List InterestBase) :
    ∀ n, (interestRows n sid items).map (fun r => r.interest) =
      items.map (fun it => it.interest) := by
  induction items with
  | nil => intro n; simp [interestRows]
  | cons it rest ih => intro n; simp [interestRows, ih]

lemma petRows_payload (sid : Nat) (items : List PetBase) :
    ∀ n, (petRows n sid items).map (fun r => (r.pet_type, r.pet_breed, r.pet_name)) =
      items.map (fun p => (p.pet_type, p.pet_breed, p.pet_name)) := by
  induction items with
  | nil => intro n; simp [petRows]
  | cons p rest ih => intro n; simp [petRows, ih]

lemma lessonRows_payload (sid : Nat) (items : List LessonBase) :
    ∀ n, (lessonRows n sid items).map (fun r => (r.content, r.date)) =
      items.map (fun l => (l.content, l.date)) := by
  induction items with
  | nil => intro n; simp [lessonRows]
  | cons l rest ih => intro n; simp [lessonRows, ih]

/-- C10: for every database state and every `parent_id` argument,
`get_students_by_parent_id` raises (an attribute error on
`Student.parent_id`) rather than returning a result, because the Student
model defines no `parent_id` attribute; no input makes it succeed. -/
theorem C10_get_students_by_parent_id_always_raises (s : Session) (parent_id : Nat) :
    get_students_by_parent_id s parent_id =
      Except.error (PyError.attributeError "Student" "parent_id") := rfl

/-- C9: for every request (every database state and every handler, whether
it succeeds or fails), the dependency `get_db` opens exactly one
storage-layer session, runs the handler on it, and the final lifecycle
event is the unconditional close. -/
theorem C9_one_session_closed_unconditionally {α : Type}
    (d : DB) (handler : Session → Except HttpError α) :
    (get_db d handler).2.count SessionEvent.opened = 1 ∧
    (get_db d handler).2.count SessionEvent.closed = 1 ∧
    (get_db d handler).2.getLast? = some SessionEvent.closed ∧
    (get_db d handler).1 = handler (SessionLocal d) := by
  refine ⟨?_, ?_, rfl, rfl⟩ <;> rfl

/-- C3: for every Student identity not present in storage, both
GET /students/{id} and DELETE /students/{id} respond with HTTP 404 and the
fixed detail message "Student not found". -/
theorem C3_get_delete_missing_student_404 (s : Session) (student_id : Nat)
    (habs : ∀ st ∈ s.staged.students, st.id ≠ student_id) :
    (read_student_handler s student_id).1 =
      Except.error (HttpError.httpException 404 "Student not found") ∧
    (delete_student_handler s student_id).1 =
      Except.error (HttpError.httpException 404 "Student not found") := by
  have hfind : s.staged.students.find? (fun st => st.id == student_id) = none := by
    rw [List.find?_eq_none]
    intro st hmem
    simp [habs st hmem]
  constructor
  · simp [read_student_handler, get_student_by_id, hfind]
  · simp [delete_student_handler, remove_student, hfind]

/-- Witness for C3 at the empty database and identity 0. -/
theorem C3_witness :
    (read_student_handler emptySess 0).1 =
      Except.error (HttpError.httpException 404 "Student not found") ∧
    (delete_student_handler emptySess 0).1 =
      Except.error (HttpError.httpException 404 "Student not found") :=
  C3_get_delete_missing_student_404 emptySess 0 (by decide)

/-- C8 fails as stated: the interests endpoint on an existing student
performs two data-access calls (the batch insert, then a student lookup),
not exactly one. -/
theorem C8_counterexample :
    (create_student_interests_handler oneStudentSess 0 [InterestBase.mk "Astronomy"]).2.length = 2 ∧
    (2 : Nat) ≠ 1 := by
  constructor
  · rfl
  · decide

/-- C8 amended: the create/read/delete student endpoints each perform
exactly one data-access call per request; each child-insert endpoint
performs the batch insert followed by a student lookup (two calls) when the
insert commits, and only the insert call when it raises. -/
theorem C8_amended_data_access_calls (s : Session) (b : StudentBase) (student_id : Nat)
    (iItems : List InterestBase) (pItems : List PetBase) (lItems : List LessonBase) :
    (create_student_handler s b).2 = [CrudCall.addStudent] ∧
    (read_student_handler s student_id).2 = [CrudCall.getStudentById] ∧
    (delete_student_handler s student_id).2 = [CrudCall.removeStudent] ∧
    (create_student_interests_handler s student_id iItems).2 =
      (match add_student_interests s student_id iItems with
       | Except.ok _ => [CrudCall.addInterests, CrudCall.getStudentById]
       | Except.error _ => [CrudCall.addInterests]) ∧
    (create_student_pets_handler s student_id pItems).2 =
      (match add_student_pets s student_id pItems with
       | Except.ok _ => [CrudCall.addPets, CrudCall.getStudentById]
       | Except.error _ => [CrudCall.addPets]) ∧
    (create_student_lessons_handler s student_id lItems).2 =
      (match add_student_lessons s student_id lItems with
       | Except.ok _ => [CrudCall.addLessons, CrudCall.getStudentById]
       | Except.error _ => [CrudCall.addLessons]) := by
  refine ⟨?_, ?_, ?_, ?_, ?_, ?_⟩
  · rcases h : add_student s b with e | ⟨s2, row⟩ <;> simp [create_student_handler, h]
  · rcases h : get_student_by_id s student_id with _ | st <;> simp [read_student_handler, h]
  · rcases h : remove_student s student_id with e | ⟨s2, done⟩
    · simp [delete_student_handler, h]
    · cases done <;> simp [delete_student_handler, h]
  · rcases h : add_student_interests s student_id iItems with e | s2 <;>
      simp [create_student_interests_handler, h]
  · rcases h : add_student_pets s student_id pItems with e | s2 <;>
      simp [create_student_pets_handler, h]
  · rcases h : add_student_lessons s student_id lItems with e | s2 <;>
      simp [create_student_lessons_handler, h]

/-- A database for the cascade check: the example student with one
interest, one pet, one lesson, and one question on that lesson. -/
def c1DB : DB :=
  { students := [anaRow],
    interests := [{ id := 1, student_id := some 0, interest := "Astronomy" }],
    pets := [{ id := 2, student_id := some 0, pet_type := "Dog",
               pet_breed := some "Beagle", pet_name := "Rex" }],
    lessons := [{ id := 3, student_id := some 0, content := "Algebra",
                  date := "2023-04-05T09:00:00" }],
    lesson_questions := [{ id := 4, lesson_id := some 3, question_text := "2+2?",
                           expected_answer := "4", given_answer := "4", score := 10 }],
    nextId := 5 }

/-- The durable state `remove_student` actually produces from `c1DB`: the
student row is gone, but every child row survives with its foreign key set
to NULL (and the lesson question untouched). -/
def c1AfterDB : DB :=
  { students := [],
    interests := [{ id := 1, student_id := none, interest := "Astronomy" }],
    pets := [{ id := 2, student_id := none, pet_type := "Dog",
               pet_breed := some "Beagle", pet_name := "Rex" }],
    lessons := [{ id := 3, student_id := none, content := "Algebra",
                  date := "2023-04-05T09:00:00" }],
    lesson_questions := [{ id := 4, lesson_id := some 3, question_text := "2+2?",
                           expected_answer := "4", given_answer := "4", score := 10 }],
    nextId := 5 }

/-- C1 fails on the code: deleting a student that owns an interest, a pet,
a lesson and a lesson question removes only the Student row.  Because the
models declare no delete cascade, the Interest, Pet and Lesson rows remain
(with NULLed foreign keys) and the LessonQuestion remains untouched — not
the zero remaining rows the claim requires. -/
theorem C1_delete_leaves_child_rows :
    remove_student (SessionLocal c1DB) 0 =
      Except.ok ({ committed := c1AfterDB, staged := c1AfterDB, commits := 1 }, true) ∧
    c1AfterDB.students = [] ∧
    c1AfterDB.interests.length = 1 ∧
    c1AfterDB.pets.length = 1 ∧
    c1AfterDB.lessons.length = 1 ∧
    c1AfterDB.lesson_questions.length = 1 := by
  refine ⟨?_, rfl, rfl, rfl, rfl, rfl⟩
  rfl

/-- A database where the example student already has one stored interest. -/
def c5DB : DB :=
  { students := [anaRow],
    interests := [{ id := 1, student_id := some 0, interest := "Chess" }],
    pets := [], lessons := [], lesson_questions := [], nextId := 2 }

/-- The durable state after POSTing two more interests to `c5DB`'s student. -/
def c5AfterDB : DB :=
  { students := [anaRow],
    interests := [{ id := 1, student_id := some 0, interest := "Chess" },
                  { id := 2, student_id := some 0, interest := "Astronomy" },
                  { id := 3, student_id := some 0, interest := "Robotics" }],
    pets := [], lessons := [], lesson_questions := [], nextId := 4 }

/-- C5 fails as universally stated: for a student that already has a stored
Interest, adding two Interests in one POST and then reading the student
returns three Interests, not exactly the two that were added. -/
theorem C5_counterexample :
    (create_student_interests_handler (SessionLocal c5DB) 0
        [InterestBase.mk "Astronomy", InterestBase.mk "Robotics"]).1 =
      Except.ok ({ committed := c5AfterDB, staged := c5AfterDB, commits := 1 },
                 some (loadStudent c5AfterDB anaRow)) ∧
    (read_student_handler { committed := c5AfterDB, staged := c5AfterDB, commits := 1 } 0).1 =
      Except.ok ({ committed := c5AfterDB, staged := c5AfterDB, commits := 1 },
                 loadStudent c5AfterDB anaRow) ∧
    (loadStudent c5AfterDB anaRow).interests.length = 3 ∧
    (3 : Nat) ≠ 2 := by
  refine ⟨?_, ?_, rfl, by decide⟩ <;> rfl

/-- C6: each batch child-insert operation stages exactly one row per item
of its input list, each row associated with the given `student_id` and
carrying the item's payload; the call is a single `commit` over the fully
staged batch, which on success increments the commit count by exactly one
(and on violation raises, persisting nothing) — the batch is atomic per
call. -/
theorem C6_batch_insert_single_commit (s : Session) (sid : Nat)
    (iItems : List InterestBase) (pItems : List PetBase) (lItems : List LessonBase) :
    ((stageInterests s.staged sid iItems).interests =
        s.staged.interests ++ interestRows s.staged.nextId sid iItems ∧
      (interestRows s.staged.nextId sid iItems).length = iItems.length ∧
      (∀ r ∈ interestRows s.staged.nextId sid iItems, r.student_id = some sid) ∧
      (interestRows s.staged.nextId sid iItems).map (fun r => r.interest) =
        iItems.map (fun it => it.interest) ∧
      add_student_interests s sid iItems =
        sCommit { s with staged := stageInterests s.staged sid iItems } ∧
      (fkViolation (stageInterests s.staged sid iItems) = false →
        add_student_interests s sid iItems =
          Except.ok { committed := stageInterests s.staged sid iItems,
                      staged := stageInterests s.staged sid iItems,
                      commits := s.commits + 1 }) ∧
      (fkViolation (stageInterests s.staged sid iItems) = true →
        add_student_interests s sid iItems = Except.error DBError.integrityError)) ∧
    ((stagePets s.staged sid pItems).pets =
        s.staged.pets ++ petRows s.staged.nextId sid pItems ∧
      (petRows s.staged.nextId sid pItems).length = pItems.length ∧
      (∀ r ∈ petRows s.staged.nextId sid pItems, r.student_id = some sid) ∧
      (petRows s.staged.nextId sid pItems).map (fun r => (r.pet_type, r.pet_breed, r.pet_name)) =
        pItems.map (fun p => (p.pet_type, p.pet_breed, p.pet_name)) ∧
      add_student_pets s sid pItems =
        sCommit { s with staged := stagePets s.staged sid pItems } ∧
      (fkViolation (stagePets s.staged sid pItems) = false →
        add_student_pets s sid pItems =
          Except.ok { committed := stagePets s.staged sid pItems,
                      staged := stagePets s.staged sid pItems,
                      commits := s.commits + 1 }) ∧
      (fkViolation (stagePets s.staged sid pItems) = true →
        add_student_pets s sid pItems = Except.error DBError.integrityError)) ∧
    ((stageLessons s.staged sid lItems).lessons =
        s.staged.lessons ++ lessonRows s.staged.nextId sid lItems ∧
      (lessonRows s.staged.nextId sid lItems).length = lItems.length ∧
      (∀ r ∈ lessonRows s.staged.nextId sid lItems, r.student_id = some sid) ∧
      (lessonRows s.staged.nextId sid lItems).map (fun r => (r.content, r.date)) =
        lItems.map (fun l => (l.content, l.date)) ∧
      add_student_lessons s sid lItems =
        sCommit { s with staged := stageLessons s.staged sid lItems } ∧
      (fkViolation (stageLessons s.staged sid lItems) = false →
        add_student_lessons s sid lItems =
          Except.ok { committed := stageLessons s.staged sid lItems,
                      staged := stageLessons s.staged sid lItems,
                      commits := s.commits + 1 }) ∧
      (fkViolation (stageLessons s.staged sid lItems) = true →
        add_student_lessons s sid lItems = Except.error DBError.integrityError)) := by
  refine ⟨⟨(stageInterests_spec sid iItems s.staged).1,
           interestRows_length sid iItems s.staged.nextId,
           interestRows_student_id sid iItems s.staged.nextId,
           interestRows_payload sid iItems s.staged.nextId, rfl, ?_, ?_⟩,
          ⟨(stagePets_spec sid pItems s.staged).1,
           petRows_length sid pItems s.staged.nextId,
           petRows_student_id sid pItems s.staged.nextId,
           petRows_payload sid pItems s.staged.nextId, rfl, ?_, ?_⟩,
          ⟨(stageLessons_spec sid lItems s.staged).1,
           lessonRows_length sid lItems s.staged.nextId,
           lessonRows_student_id sid lItems s.staged.nextId,
           lessonRows_payload sid lItems s.staged.nextId, rfl, ?_, ?_⟩⟩ <;>
    intro hviol <;>
    simp [add_student_interests, add_student_pets, add_student_lessons, sCommit, hviol]

/-- Witness for C6: inserting one interest for the stored example student
commits once and succeeds. -/
theorem C6_witness :
    fkViolation (stageInterests oneStudentSess.staged 0 [InterestBase.mk "Astronomy"]) = false ∧
    add_student_interests oneStudentSess 0 [InterestBase.mk "Astronomy"] =
      Except.ok { committed := stageInterests oneStudentSess.staged 0 [InterestBase.mk "Astronomy"],
                  staged := stageInterests oneStudentSess.staged 0 [InterestBase.mk "Astronomy"],
                  commits := oneStudentSess.commits + 1 } :=
  ⟨by decide,
   (C6_batch_insert_single_commit oneStudentSess 0 [InterestBase.mk "Astronomy"] [] []).1.2.2.2.2.2.1
     (by decide)⟩

lemma fkViolation_stageInterests_absent (s : Session) (sid : Nat)
    (items : List InterestBase) (habs : ∀ st ∈ s.staged.students, st.id ≠ sid)
    (hne : items ≠ []) :
    fkViolation (stageInterests s.staged sid items) = true := by
  obtain ⟨h1, h2, -, -, -, -⟩ := stageInterests_spec sid items s.staged
  cases items with
  | nil => exact absurd rfl hne
  | cons it rest =>
    have hmem :
        ({ id := s.staged.nextId, student_id := some sid, interest := it.interest } :
            InterestRow) ∈
          (stageInterests s.staged sid (it :: rest)).interests := by
      rw [h1]
      exact List.mem_append_right _ (by simp [interestRows])
    have hfalse : refOk (stageInterests s.staged sid (it :: rest)).students (some sid) = false := by
      rw [h2]
      exact refOk_false_of_absent _ _ habs
    have hany : (stageInterests s.staged sid (it :: rest)).interests.any
        (fun i => !(refOk (stageInterests s.staged sid (it :: rest)).students i.student_id)) = true := by
      rw [List.any_eq_true]
      exact ⟨_, hmem, by simp [hfalse]⟩
    simp [fkViolation, hany]

lemma fkViolation_stagePets_absent (s : Session) (sid : Nat)
    (items : List PetBase) (habs : ∀ st ∈ s.staged.students, st.id ≠ sid)
    (hne : items ≠ []) :
    fkViolation (stagePets s.staged sid items) = true := by
  obtain ⟨h1, h2, -, -, -, -⟩ := stagePets_spec sid items s.staged
  cases items with
  | nil => exact absurd rfl hne
  | cons p rest =>
    have hmem :
        ({ id := s.staged.nextId, student_id := some sid, pet_type := p.pet_type,
             pet_breed := p.pet_breed, pet_name := p.pet_name } : PetRow) ∈
          (stagePets s.staged sid (p :: rest)).pets := by
      rw [h1]
      exact List.mem_append_right _ (by simp [petRows])
    have hfalse : refOk (stagePets s.staged sid (p :: rest)).students (some sid) = false := by
      rw [h2]
      exact refOk_false_of_absent _ _ habs
    have hany : (stagePets s.staged sid (p :: rest)).pets.any
        (fun q => !(refOk (stagePets s.staged sid (p :: rest)).students q.student_id)) = true := by
      rw [List.any_eq_true]
      exact ⟨_, hmem, by simp [hfalse]⟩
    simp [fkViolation, hany]

lemma fkViolation_stageLessons_absent (s : Session) (sid : Nat)
    (items : List LessonBase) (habs : ∀ st ∈ s.staged.students, st.id ≠ sid)
    (hne : items ≠ []) :
    fkViolation (stageLessons s.staged sid items) = true := by
  obtain ⟨h1, h2, -, -, -, -⟩ := stageLessons_spec sid items s.staged
  cases items with
  | nil => exact absurd rfl hne
  | cons l rest =>
    have hmem :
        ({ id := s.staged.nextId, student_id := some sid, content := l.content,
             date := l.date } : LessonRow) ∈
          (stageLessons s.staged sid (l :: rest)).lessons := by
      rw [h1]
      exact List.mem_append_right _ (by simp [lessonRows])
    have hfalse : refOk (stageLessons s.staged sid (l :: rest)).students (some sid) = false := by
      rw [h2]
      exact refOk_false_of_absent _ _ habs
    have hany : (stageLessons s.staged sid (l :: rest)).lessons.any
        (fun q => !(refOk (stageLessons s.staged sid (l :: rest)).students q.student_id)) = true := by
      rw [List.any_eq_true]
      exact ⟨_, hmem, by simp [hfalse]⟩
    simp [fkViolation, hany]

/-- C2: for a `student_id` not present in storage, POSTing a non-empty
batch of child entities (interests, pets, or lessons) makes the storage
layer raise a foreign-key integrity error at commit, which propagates out
of the handler as a generic server error; it never silently succeeds. -/
theorem C2_child_insert_missing_student_errors (s : Session) (sid : Nat)
    (iItems : List InterestBase) (pItems : List PetBase) (lItems : List LessonBase)
    (habs : ∀ st ∈ s.staged.students, st.id ≠ sid)
    (hi : iItems ≠ []) (hp : pItems ≠ []) (hl : lItems ≠ []) :
    add_student_interests s sid iItems = Except.error DBError.integrityError ∧
    (create_student_interests_handler s sid iItems).1 = Except.error HttpError.serverError ∧
    add_student_pets s sid pItems = Except.error DBError.integrityError ∧
    (create_student_pets_handler s sid pItems).1 = Except.error HttpError.serverError ∧
    add_student_lessons s sid lItems = Except.error DBError.integrityError ∧
    (create_student_lessons_handler s sid lItems).1 = Except.error HttpError.serverError := by
  have hvi := fkViolation_stageInterests_absent s sid iItems habs hi
  have hvp := fkViolation_stagePets_absent s sid pItems habs hp
  have hvl := fkViolation_stageLessons_absent s sid lItems habs hl
  have ei : add_student_interests s sid iItems = Except.error DBError.integrityError := by
    simp [add_student_interests, sCommit, hvi]
  have ep : add_student_pets s sid pItems = Except.error DBError.integrityError := by
    simp [add_student_pets, sCommit, hvp]
  have el : add_student_lessons s sid lItems = Except.error DBError.integrityError := by
    simp [add_student_lessons, sCommit, hvl]
  exact ⟨ei, by simp [create_student_interests_handler, ei],
         ep, by simp [create_student_pets_handler, ep],
         el, by simp [create_student_lessons_handler, el]⟩

/-- Witness for C2: posting one pet, one interest and one lesson to
identity 0 over the empty database yields integrity errors and server
error responses. -/
theorem C2_witness :
    add_student_pets emptySess 0
      [PetBase.mk "Dog" none "Rex"] = Except.error DBError.integrityError ∧
    (create_student_pets_handler emptySess 0
      [PetBase.mk "Dog" none "Rex"]).1 = Except.error HttpError.serverError := by
  have h := C2_child_insert_missing_student_errors emptySess 0
    [InterestBase.mk "Astronomy"] [PetBase.mk "Dog" none "Rex"]
    [LessonBase.mk "Algebra" "2023-04-05T09:00:00"]
    (by decide) (by decide) (by decide) (by decide)
  exact ⟨h.2.2.1, h.2.2.2.1⟩

lemma fkViolation_insertStudent (d : DB) (b : StudentBase)
    (h : fkViolation d = false) : fkViolation (insertStudent d b) = false := by
  rw [fkViolation_false_iff] at h ⊢
  obtain ⟨hi, hp, hl, hq⟩ := h
  refine ⟨?_, ?_, ?_, ?_⟩
  · intro i hmem
    exact refOk_append _ _ _ (hi i hmem)
  · intro p hmem
    exact refOk_append _ _ _ (hp p hmem)
  · intro l hmem
    exact refOk_append _ _ _ (hl l hmem)
  · intro q hmem
    exact hq q hmem

/-- C4: for every valid StudentBase input (over a consistent, fresh
database), `add_student` appends exactly one new Student row whose identity
is the freshly generated value — distinct from every stored identity and
not supplied by the client, whose request type has no identity field — and
the persisted entity's interests, pets and lessons collections are all
empty. -/
theorem C4_create_student_fresh_id_empty_children (s : Session) (b : StudentBase)
    (hfresh : freshOk s.staged = true) (hfk : fkViolation s.staged = false) :
    add_student s b =
      Except.ok ({ committed := insertStudent s.staged b,
                   staged := insertStudent s.staged b,
                   commits := s.commits + 1 }, mkStudentRow s.staged.nextId b) ∧
    (insertStudent s.staged b).students =
      s.staged.students ++ [mkStudentRow s.staged.nextId b] ∧
    (∀ st ∈ s.staged.students, st.id ≠ (mkStudentRow s.staged.nextId b).id) ∧
    loadStudent (insertStudent s.staged b) (mkStudentRow s.staged.nextId b) =
      { row := mkStudentRow s.staged.nextId b, interests := [], pets := [], lessons := [] } := by
  obtain ⟨hs, hi, hp, hl, hq⟩ := freshOk_spec s.staged hfresh
  refine ⟨?_, rfl, ?_, ?_⟩
  · simp [add_student, sCommit, fkViolation_insertStudent s.staged b hfk, Except.map]
  · intro st hmem
    have := hs st hmem
    simp only [mkStudentRow]
    omega
  · have hIf : (insertStudent s.staged b).interests.filter
        (fun i => i.student_id == some (mkStudentRow s.staged.nextId b).id) = [] := by
      rw [List.filter_eq_nil_iff]
      intro i hmem
      have h3 := idLt_ne_some s.staged.nextId i.student_id (hi i hmem).2
        s.staged.nextId (le_refl _)
      simpa [mkStudentRow] using h3
    have hPf : (insertStudent s.staged b).pets.filter
        (fun p => p.student_id == some (mkStudentRow s.staged.nextId b).id) = [] := by
      rw [List.filter_eq_nil_iff]
      intro p hmem
      have h3 := idLt_ne_some s.staged.nextId p.student_id (hp p hmem).2
        s.staged.nextId (le_refl _)
      simpa [mkStudentRow] using h3
    have hLf : (insertStudent s.staged b).lessons.filter
        (fun l => l.student_id == some (mkStudentRow s.staged.nextId b).id) = [] := by
      rw [List.filter_eq_nil_iff]
      intro l hmem
      have h3 := idLt_ne_some s.staged.nextId l.student_id (hl l hmem).2
        s.staged.nextId (le_refl _)
      simpa [mkStudentRow] using h3
    simp [loadStudent, hIf, hPf, hLf]

/-- Witness for C4: creating the example student over the empty database. -/
theorem C4_witness :
    freshOk emptySess.staged = true ∧ fkViolation emptySess.staged = false ∧
    add_student emptySess anaBase =
      Except.ok ({ committed := insertStudent emptySess.staged anaBase,
                   staged := insertStudent emptySess.staged anaBase,
                   commits := emptySess.commits + 1 },
                 mkStudentRow emptySess.staged.nextId anaBase) ∧
    loadStudent (insertStudent emptySess.staged anaBase)
        (mkStudentRow emptySess.staged.nextId anaBase) =
      { row := mkStudentRow emptySess.staged.nextId anaBase,
        interests := [], pets := [], lessons := [] } := by
  have h := C4_create_student_fresh_id_empty_children emptySess anaBase (by decide) (by decide)
  exact ⟨by decide, by decide, h.1, h.2.2.2⟩

lemma refOk_nullify (students : List StudentRow) (x : Nat) (r : Option Nat)
    (h : refOk students r = true) :
    refOk (students.filter (fun st => !(st.id == x))) (nullifyRef x r) = true := by
  cases r with
  | none => simp [nullifyRef, refOk]
  | some y =>
    by_cases hy : y = x
    · subst hy
      simp [nullifyRef, refOk]
    · have hr : nullifyRef x (some y) = some y := by
        simp [nullifyRef, hy]
      rw [hr]
      simp only [refOk, List.any_eq_true] at h ⊢
      rcases h with ⟨st, hmem, hbeq⟩
      refine ⟨st, ?_, hbeq⟩
      rw [List.mem_filter]
      refine ⟨hmem, ?_⟩
      have hsty : st.id = y := by simpa using hbeq
      simp [hsty, hy]

lemma fkViolation_stageDelete (d : DB) (x : Nat) (h : fkViolation d = false) :
    fkViolation (stageDeleteStudent d x) = false := by
  rw [fkViolation_false_iff] at h ⊢
  obtain ⟨hi, hp, hl, hq⟩ := h
  refine ⟨?_, ?_, ?_, ?_⟩
  · intro i hmem
    rcases List.mem_map.mp hmem with ⟨i0, hi0, rfl⟩
    exact refOk_nullify d.students x i0.student_id (hi i0 hi0)
  · intro p hmem
    rcases List.mem_map.mp hmem with ⟨p0, hp0, rfl⟩
    exact refOk_nullify d.students x p0.student_id (hp p0 hp0)
  · intro l hmem
    rcases List.mem_map.mp hmem with ⟨l0, hl0, rfl⟩
    exact refOk_nullify d.students x l0.student_id (hl l0 hl0)
  · intro q hmem
    have hq0 := hq q hmem
    cases hql : q.lesson_id with
    | none => simp [lessonRefOk]
    | some lid =>
      rw [hql] at hq0
      simp only [lessonRefOk, List.any_eq_true] at hq0 ⊢
      rcases hq0 with ⟨l, hlmem, hbeq⟩
      exact ⟨{ l with student_id := nullifyRef x l.student_id },
             List.mem_map_of_mem _ hlmem, hbeq⟩

/-- C7: `remove_student` returns whether a deletion occurred — True (after
deleting the row) when the student exists, False when not — and on success
the DELETE endpoint responds with exactly the body
`{"detail": "Student removed"}`; afterwards no student row with the deleted
identity remains. -/
theorem C7_delete_student_contract (s : Session) (student_id : Nat)
    (hfk : fkViolation s.staged = false) :
    (∀ st, get_student_by_id s student_id = some st →
      remove_student s student_id =
        Except.ok ({ committed := stageDeleteStudent s.staged st.id,
                     staged := stageDeleteStudent s.staged st.id,
                     commits := s.commits + 1 }, true) ∧
      (delete_student_handler s student_id).1 =
        Except.ok ({ committed := stageDeleteStudent s.staged st.id,
                     staged := stageDeleteStudent s.staged st.id,
                     commits := s.commits + 1 }, Detail.mk "Student removed") ∧
      (∀ x ∈ (stageDeleteStudent s.staged st.id).students, x.id ≠ student_id)) ∧
    (get_student_by_id s student_id = none →
      remove_student s student_id = Except.ok (s, false) ∧
      (delete_student_handler s student_id).1 =
        Except.error (HttpError.httpException 404 "Student not found")) := by
  constructor
  · intro st hfound
    have hfound2 : s.staged.students.find? (fun x => x.id == student_id) = some st := hfound
    have hid : st.id = student_id := by simpa using List.find?_some hfound2
    have hviol := fkViolation_stageDelete s.staged st.id hfk
    have hrm : remove_student s student_id =
        Except.ok ({ committed := stageDeleteStudent s.staged st.id,
                     staged := stageDeleteStudent s.staged st.id,
                     commits := s.commits + 1 }, true) := by
      simp [remove_student, hfound2, sCommit, hviol, Except.map]
    refine ⟨hrm, ?_, ?_⟩
    · simp [delete_student_handler, hrm]
    · intro x hx
      have hx2 : x ∈ s.staged.students.filter (fun y => !(y.id == st.id)) := hx
      have := (List.mem_filter.mp hx2).2
      rw [hid] at this
      simpa using this
  · intro hnone
    have hnone2 : s.staged.students.find? (fun x => x.id == student_id) = none := hnone
    constructor
    · simp [remove_student, hnone2]
    · simp [delete_student_handler, remove_student, hnone2]

/-- Witness for C7: deleting the stored example student returns True and
the fixed success body; deleting over the empty database returns False and
a 404. -/
theorem C7_witness :
    (fkViolation oneStudentSess.staged = false ∧
      get_student_by_id oneStudentSess 0 = some anaRow ∧
      remove_student oneStudentSess 0 =
        Except.ok ({ committed := stageDeleteStudent oneStudentSess.staged anaRow.id,
                     staged := stageDeleteStudent oneStudentSess.staged anaRow.id,
                     commits := oneStudentSess.commits + 1 }, true) ∧
      (delete_student_handler oneStudentSess 0).1 =
        Except.ok ({ committed := stageDeleteStudent oneStudentSess.staged anaRow.id,
                     staged := stageDeleteStudent oneStudentSess.staged anaRow.id,
                     commits := oneStudentSess.commits + 1 }, Detail.mk "Student removed")) ∧
    (get_student_by_id emptySess 0 = none ∧
      remove_student emptySess 0 = Except.ok (emptySess, false) ∧
      (delete_student_handler emptySess 0).1 =
        Except.error (HttpError.httpException 404 "Student not found")) := by
  have h1 := (C7_delete_student_contract oneStudentSess 0 (by decide)).1 anaRow (by decide)
  have h2 := (C7_delete_student_contract emptySess 0 (by decide)).2 (by decide)
  exact ⟨⟨by decide, by decide, h1.1, h1.2.1⟩, ⟨by decide, h2.1, h2.2⟩⟩

/-- C5 amended: for every existing Student with no previously stored
Interests, adding two Interests in one POST request and then performing GET
on that Student returns exactly those two Interests, each carrying a
distinct freshly generated identity that collides with no stored one. -/
theorem C5_amended_add_two_interests_round_trip (s : Session) (sid : Nat)
    (st : StudentRow) (i1 i2 : InterestBase)
    (hfresh : freshOk s.staged = true) (hfk : fkViolation s.staged = false)
    (hfound : get_student_by_id s sid = some st)
    (hnoprior : s.staged.interests.filter (fun i => i.student_id == some sid) = []) :
    (create_student_interests_handler s sid [i1, i2]).1 =
      Except.ok ({ committed := stageInterests s.staged sid [i1, i2],
                   staged := stageInterests s.staged sid [i1, i2],
                   commits := s.commits + 1 },
                 some (loadStudent (stageInterests s.staged sid [i1, i2]) st)) ∧
    (read_student_handler { committed := stageInterests s.staged sid [i1, i2],
                            staged := stageInterests s.staged sid [i1, i2],
                            commits := s.commits + 1 } sid).1 =
      Except.ok ({ committed := stageInterests s.staged sid [i1, i2],
                   staged := stageInterests s.staged sid [i1, i2],
                   commits := s.commits + 1 },
                 loadStudent (stageInterests s.staged sid [i1, i2]) st) ∧
    (loadStudent (stageInterests s.staged sid [i1, i2]) st).interests =
      [{ id := s.staged.nextId, student_id := some sid, interest := i1.interest },
       { id := s.staged.nextId + 1, student_id := some sid, interest := i2.interest }] ∧
    s.staged.nextId ≠ s.staged.nextId + 1 ∧
    (∀ i ∈ s.staged.interests, i.id ≠ s.staged.nextId ∧ i.id ≠ s.staged.nextId + 1) := by
  have hfound2 : s.staged.students.find? (fun x => x.id == sid) = some st := hfound
  have hid : st.id = sid := by simpa using List.find?_some hfound2
  have hmem : st ∈ s.staged.students := List.mem_of_find?_eq_some hfound2
  have hInt : (stageInterests s.staged sid [i1, i2]).interests =
      (s.staged.interests ++
        [{ id := s.staged.nextId, student_id := some sid, interest := i1.interest }]) ++
      [{ id := s.staged.nextId + 1, student_id := some sid, interest := i2.interest }] := rfl
  have hStu : (stageInterests s.staged sid [i1, i2]).students = s.staged.students := rfl
  have hPet : (stageInterests s.staged sid [i1, i2]).pets = s.staged.pets := rfl
  have hLes : (stageInterests s.staged sid [i1, i2]).lessons = s.staged.lessons := rfl
  have hLQ : (stageInterests s.staged sid [i1, i2]).lesson_questions =
      s.staged.lesson_questions := rfl
  have hviol : fkViolation (stageInterests s.staged sid [i1, i2]) = false := by
    rw [fkViolation_false_iff]
    rw [fkViolation_false_iff] at hfk
    obtain ⟨hi0, hp0, hl0, hq0⟩ := hfk
    refine ⟨?_, ?_, ?_, ?_⟩
    · intro i hmemi
      rw [hInt] at hmemi
      rw [hStu]
      rcases List.mem_append.mp hmemi with h | h
      · rcases List.mem_append.mp h with h2 | h2
        · exact hi0 i h2
        · have hieq : i = { id := s.staged.nextId, student_id := some sid, interest := i1.interest } := by
            simpa using h2
          rw [hieq]
          exact refOk_of_mem _ st hmem sid hid
      · have hieq : i = { id := s.staged.nextId + 1, student_id := some sid, interest := i2.interest } := by
          simpa using h
        rw [hieq]
        exact refOk_of_mem _ st hmem sid hid
    · intro p hmemp
      rw [hPet] at hmemp
      rw [hStu]
      exact hp0 p hmemp
    · intro l hmeml
      rw [hLes] at hmeml
      rw [hStu]
      exact hl0 l hmeml
    · intro q hmemq
      rw [hLQ] at hmemq
      rw [hLes]
      exact hq0 q hmemq
  have hcommit : add_student_interests s sid [i1, i2] =
      Except.ok { committed := stageInterests s.staged sid [i1, i2],
                  staged := stageInterests s.staged sid [i1, i2],
                  commits := s.commits + 1 } := by
    simp [add_student_interests, sCommit, hviol]
  have hfind2 : get_student_by_id
      { committed := stageInterests s.staged sid [i1, i2],
        staged := stageInterests s.staged sid [i1, i2],
        commits := s.commits + 1 } sid = some st := by
    show (stageInterests s.staged sid [i1, i2]).students.find? (fun x => x.id == sid) = some st
    rw [hStu]
    exact hfound2
  have hload : (loadStudent (stageInterests s.staged sid [i1, i2]) st).interests =
      [{ id := s.staged.nextId, student_id := some sid, interest := i1.interest },
       { id := s.staged.nextId + 1, student_id := some sid, interest := i2.interest }] := by
    show (stageInterests s.staged sid [i1, i2]).interests.filter
        (fun i => i.student_id == some st.id) = _
    simp only [hInt, hid, List.filter_append, hnoprior]
    simp
  obtain ⟨-, hiFresh, -, -, -⟩ := freshOk_spec s.staged hfresh
  refine ⟨?_, ?_, hload, by omega, ?_⟩
  · simp [create_student_interests_handler, hcommit, hfind2]
  · simp [read_student_handler, hfind2]
  · intro i hmemi
    have := (hiFresh i hmemi).1
    omega

/-- Witness for the amended C5: the stored example student (no prior
interests) receives "Astronomy" and "Robotics" and the read-back returns
exactly those two rows with fresh distinct identities. -/
theorem C5_witness :
    (create_student_interests_handler oneStudentSess 0
        [InterestBase.mk "Astronomy", InterestBase.mk "Robotics"]).1 =
      Except.ok
        ({ committed := stageInterests oneStudentSess.staged 0
              [InterestBase.mk "Astronomy", InterestBase.mk "Robotics"],
           staged := stageInterests oneStudentSess.staged 0
              [InterestBase.mk "Astronomy", InterestBase.mk "Robotics"],
           commits := oneStudentSess.commits + 1 },
         some (loadStudent (stageInterests oneStudentSess.staged 0
            [InterestBase.mk "Astronomy", InterestBase.mk "Robotics"]) anaRow)) ∧
    (loadStudent (stageInterests oneStudentSess.staged 0
        [InterestBase.mk "Astronomy", InterestBase.mk "Robotics"]) anaRow).interests =
      [{ id := oneStudentSess.staged.nextId, student_id := some 0, interest := "Astronomy" },
       { id := oneStudentSess.staged.nextId + 1, student_id := some 0, interest := "Robotics" }] := by
  have h := C5_amended_add_two_interests_round_trip oneStudentSess 0 anaRow
    (InterestBase.mk "Astronomy") (InterestBase.mk "Robotics")
    (by decide) (by decide) (by decide) (by decide)
  exact ⟨h.1, h.2.2.1⟩
